import Mathlib

/-!
# Authentication flow controller of `src/App.js`

A shallow embedding of the four asynchronous operations of the `App` component
(`initializeOAuth`, `handleGoogleSignIn`, `handleFacebookSignIn`, `handleSignOut`)
and of the React state they update.

* The five `useState` cells become the record `AppState`.
* Every statement with an outside-visible effect (a state setter, a provider call,
  `Alert.alert`, `console.log`) appends one `Effect` to a trace, in program order.
* The vendor SDKs are external: the outcome of each provider call (it returns a value
  or it throws) is an input of the operation, collected in an environment record.
* `try / catch / finally` and the early `return` of the source are kept as such, through
  a small state-and-exception monad `Js`.
* At every provider call the state held at that moment is recorded: it is the state the
  screen is rendered from while the call is pending.

The operations are executed one at a time (the `loading` flag disables the buttons
while one is in flight); interleavings of two pending operations are not modelled.
-/

namespace AuthFlow

/-! ## JavaScript values -/

/-- The JavaScript values the controller can meet in a provider record or a JSON body.
A JSON number is a finite double, hence a rational; `object` stands for any array or
object, of which the code only ever tests the truthiness. -/
inductive JsVal where
  | undefined
  | null
  | bool (b : Bool)
  | num (q : Rat)
  | str (s : String)
  | object
  deriving DecidableEq

/-- JavaScript truthiness (`ToBoolean`). -/
def JsVal.truthy : JsVal → Bool
  | .undefined => false
  | .null => false
  | .bool b => b
  | .num q => decide (q ≠ 0)
  | .str s => decide (s ≠ "")
  | .object => true

/-- The operator `a || b`. -/
def JsVal.or (a b : JsVal) : JsVal :=
  if a.truthy then a else b

/-- The test `v === s` against a string constant `s`. -/
def JsVal.strictEqStr (v : JsVal) (s : String) : Bool :=
  match v with
  | .str t => decide (t = s)
  | _ => false

/-- One piece of a template literal: literal text or a substituted value. -/
inductive TemplatePart where
  | text (s : String)
  | subst (v : JsVal)
  deriving DecidableEq

/-- A string expression of the source: a plain literal is a single `text` part, a
template literal keeps its substituted values unconverted. -/
abbrev JsText := List TemplatePart

/-- A plain string literal. -/
def lit (s : String) : JsText := [.text s]

/-- A thrown error object; the controller reads nothing of it but `error.code`
(`undefined` when the error carries no code). Providers are taken to reject with an
object, so that reading `error.code` in a `catch` block does not itself throw. -/
structure JsError where
  code : JsVal
  deriving DecidableEq

/-- The constants `statusCodes` imported from the Google sign-in library (their values are
not part of the repository). -/
structure StatusCodes where
  SIGN_IN_CANCELLED : String
  IN_PROGRESS : String
  PLAY_SERVICES_NOT_AVAILABLE : String
  deriving DecidableEq

/-! ## Provider records -/

/-- The `user` record of a Google session (`userInfo.user`, `currentUser.user`). An
absent field reads as `undefined`. -/
structure GoogleUser where
  name : JsVal
  email : JsVal
  deriving DecidableEq

/-- What `GoogleSignin.signIn` and a non-null `GoogleSignin.getCurrentUser` resolve to. -/
structure UserInfo where
  user : GoogleUser
  deriving DecidableEq

/-- What `LoginManager.logInWithPermissions` resolves to. -/
structure LoginResult where
  isCancelled : Bool
  deriving DecidableEq

/-- A Facebook access token object (`data.accessToken`). -/
structure AccessToken where
  accessToken : String
  deriving DecidableEq

/-- The JSON object of the Graph API profile request. An absent field reads as
`undefined`. -/
structure UserProfile where
  id : JsVal
  name : JsVal
  email : JsVal
  picture : JsVal
  deriving DecidableEq

/-- Outcome of a provider call: it returns a value or throws. -/
inductive Outcome (α : Type) where
  | returns (v : α)
  | throws (e : JsError)

/-- The `Response` of `fetch`: only `response.json()` is used. -/
structure Response where
  json : Outcome UserProfile

/-! ## State and effects -/

/-- The five `useState` cells of `App`. -/
structure AppState where
  currentScreen : String
  userName : JsVal
  userEmail : JsVal
  loading : Bool
  initializing : Bool
  deriving DecidableEq

/-- The state `App` is created with (the `useState` initial values). -/
def AppState.initial : AppState :=
  ⟨"signup", .str "", .str "", false, true⟩

/-- Calls made to the outside. -/
inductive ProviderCall where
  | configure
  | getCurrentUser
  | hasPlayServices
  | signIn
  | googleSignOut
  | logInWithPermissions
  | getCurrentAccessToken
  | fetch (url : JsText)
  | responseJson
  | logOut
  deriving DecidableEq

/-- The second argument of a `console.log` call. -/
inductive LogArg where
  | error (e : JsError)
  | userInfo (u : UserInfo)
  | userProfile (p : UserProfile)
  deriving DecidableEq

/-- One observable step of an operation. -/
inductive Effect where
  | setCurrentScreen (v : String)
  | setUserName (v : JsVal)
  | setUserEmail (v : JsVal)
  | setLoading (b : Bool)
  | setInitializing (b : Bool)
  | call (c : ProviderCall)
  | alert (title : String) (message : JsText) (buttons : List String)
  | log (label : String) (arg : LogArg)
  deriving DecidableEq

/-- The state together with the trace of effects so far (oldest first), and for each
provider call made so far the state that was current when it was made. -/
structure World where
  state : AppState
  trace : List Effect
  inFlight : List (ProviderCall × AppState)
  deriving DecidableEq

/-- How a piece of code completes: normally with a value, or by throwing. -/
inductive Completion (α : Type) where
  | normal (v : α)
  | thrown (e : JsError)

/-- Code running against the world; an exception does not roll the world back. -/
def Js (α : Type) : Type := World → Completion α × World

instance : Monad Js where
  pure a := fun w => (.normal a, w)
  bind x f := fun w =>
    match x w with
    | (.normal a, w1) => f a w1
    | (.thrown e, w1) => (.thrown e, w1)

instance : MonadExceptOf JsError Js where
  throw e := fun w => (.thrown e, w)
  tryCatch x handler := fun w =>
    match x w with
    | (.normal a, w1) => (.normal a, w1)
    | (.thrown e, w1) => handler e w1

instance : MonadFinally Js where
  tryFinally' x h := fun w =>
    match x w with
    | (.normal a, w1) =>
      match h (some a) w1 with
      | (.normal b, w2) => (.normal (a, b), w2)
      | (.thrown e, w2) => (.thrown e, w2)
    | (.thrown e, w1) =>
      match h none w1 with
      | (.normal _, w2) => (.thrown e, w2)
      | (.thrown e2, w2) => (.thrown e2, w2)

/-- Record an effect in the trace. -/
def emit (e : Effect) : Js Unit :=
  fun w => (.normal (), { w with trace := w.trace ++ [e] })

/-- Change the state. -/
def modifyState (f : AppState → AppState) : Js Unit :=
  fun w => (.normal (), { w with state := f w.state })

def setCurrentScreen (v : String) : Js Unit := do
  emit (.setCurrentScreen v)
  modifyState fun s => { s with currentScreen := v }

def setUserName (v : JsVal) : Js Unit := do
  emit (.setUserName v)
  modifyState fun s => { s with userName := v }

def setUserEmail (v : JsVal) : Js Unit := do
  emit (.setUserEmail v)
  modifyState fun s => { s with userEmail := v }

def setLoading (b : Bool) : Js Unit := do
  emit (.setLoading b)
  modifyState fun s => { s with loading := b }

def setInitializing (b : Bool) : Js Unit := do
  emit (.setInitializing b)
  modifyState fun s => { s with initializing := b }

/-- The call `Alert.alert(title, message, buttons)`. -/
def alert (title : String) (message : JsText) (buttons : List String) : Js Unit :=
  emit (.alert title message buttons)

/-- The call `console.log(label, arg)`. -/
def consoleLog (label : String) (arg : LogArg) : Js Unit :=
  emit (.log label arg)

/-- Record the state that is current while the provider call `c` is made. -/
def snapshot (c : ProviderCall) : Js Unit :=
  fun w => (.normal (), { w with inFlight := w.inFlight ++ [(c, w.state)] })

/-- Make the provider call `c`, whose outcome is `o`: the call and the state it is made in
are recorded, then its value is returned or its error thrown. Within an `async` function
an awaited rejection and a synchronous throw reach the enclosing `catch` alike. -/
def invoke {α : Type} (c : ProviderCall) (o : Outcome α) : Js α := do
  emit (.call c)
  snapshot c
  match o with
  | .returns v => pure v
  | .throws e => throw e

/-! ## The four operations -/

/-- Outcomes of the provider calls of `initializeOAuth`. -/
structure InitEnv where
  configure : Outcome Unit
  getCurrentUser : Outcome (Option UserInfo)

/-- Outcomes of the provider calls of `handleGoogleSignIn`. -/
structure GoogleEnv where
  hasPlayServices : Outcome Unit
  signIn : Outcome UserInfo

/-- Outcomes of the provider calls of `handleFacebookSignIn`. -/
structure FacebookEnv where
  logInWithPermissions : Outcome LoginResult
  getCurrentAccessToken : Outcome (Option AccessToken)
  fetch : Outcome Response

/-- Outcomes of the provider calls of `handleSignOut`. -/
structure SignOutEnv where
  signOut : Outcome Unit
  logOut : Outcome Unit

/-- The handler `initializeOAuth` of src/App.js, lines 36-58. -/
def initializeOAuth (env : InitEnv) : Js Unit := do
  try
    invoke .configure env.configure
    let currentUser ← invoke .getCurrentUser env.getCurrentUser
    if let some currentUser := currentUser then
      setUserName currentUser.user.name
      setUserEmail currentUser.user.email
      setCurrentScreen "welcome"
  catch err =>
    consoleLog "OAuth initialization error:" (.error err)
  finally
    setInitializing false

/-- The handler `handleGoogleSignIn` of src/App.js, lines 61-104. -/
def handleGoogleSignIn (statusCodes : StatusCodes) (env : GoogleEnv) : Js Unit := do
  try
    setLoading true
    invoke .hasPlayServices env.hasPlayServices
    let userInfo ← invoke .signIn env.signIn
    consoleLog "Google Sign-In Success:" (.userInfo userInfo)
    let user := userInfo.user
    setUserName user.name
    setUserEmail user.email
    setCurrentScreen "welcome"
    alert "Success!"
      [.text "Welcome ", .subst user.name,
       .text "! You\x27ve successfully signed in with Google."]
      ["OK"]
  catch err =>
    setLoading false
    consoleLog "Google Sign-In Error:" (.error err)
    if err.code.strictEqStr statusCodes.SIGN_IN_CANCELLED then
      alert "Cancelled" (lit "Google sign-in was cancelled") []
    else if err.code.strictEqStr statusCodes.IN_PROGRESS then
      alert "In Progress" (lit "Google sign-in is in progress") []
    else if err.code.strictEqStr statusCodes.PLAY_SERVICES_NOT_AVAILABLE then
      alert "Error" (lit "Google Play Services not available") []
    else
      alert "Error" (lit "Something went wrong with Google sign-in") []
  finally
    setLoading false

/-- The Graph API address requested for the token `data`. -/
def graphUrl (data : AccessToken) : JsText :=
  [.text "https://graph.facebook.com/me?access_token=", .subst (.str data.accessToken),
   .text "&fields=id,name,email,picture.type(large)"]

/-- The handler `handleFacebookSignIn` of src/App.js, lines 107-159. -/
def handleFacebookSignIn (env : FacebookEnv) : Js Unit := do
  try
    setLoading true
    let result ← invoke .logInWithPermissions env.logInWithPermissions
    if result.isCancelled then
      alert "Cancelled" (lit "Facebook login was cancelled") []
      setLoading false
      return
    let data ← invoke .getCurrentAccessToken env.getCurrentAccessToken
    let some data := data
      | do
        alert "Error" (lit "Something went wrong obtaining access token") []
        setLoading false
        return
    let response ← invoke (.fetch (graphUrl data)) env.fetch
    let userProfile ← invoke .responseJson response.json
    consoleLog "Facebook Sign-In Success:" (.userProfile userProfile)
    setUserName userProfile.name
    setUserEmail (userProfile.email.or (.str "No email provided"))
    setCurrentScreen "welcome"
    alert "Success!"
      [.text "Welcome ", .subst userProfile.name,
       .text "! You\x27ve successfully signed in with Facebook."]
      ["OK"]
  catch err =>
    setLoading false
    consoleLog "Facebook Sign-In Error:" (.error err)
    alert "Error" (lit "Something went wrong with Facebook sign-in") []
  finally
    setLoading false

/-- The handler `handleSignOut` of src/App.js, lines 162-184. -/
def handleSignOut (env : SignOutEnv) : Js Unit := do
  try
    setLoading true
    invoke .googleSignOut env.signOut
    invoke .logOut env.logOut
    setUserName (.str "")
    setUserEmail (.str "")
    setCurrentScreen "signup"
    alert "Signed Out" (lit "You have been signed out successfully") []
  catch err =>
    consoleLog "Sign out error:" (.error err)
    alert "Error" (lit "Something went wrong during sign out") []
  finally
    setLoading false

/-- Run an operation from the state `s` with an empty trace. -/
def run (op : Js Unit) (s : AppState) : World :=
  (op ⟨s, [], []⟩).2

/-- The state an operation ends in. -/
def stateAfter (op : Js Unit) (s : AppState) : AppState :=
  (run op s).state

/-- The effects an operation performs, in order. -/
def traceOf (op : Js Unit) (s : AppState) : List Effect :=
  (run op s).trace

/-- The provider calls an operation makes, in order, each with the state it was made in. -/
def statesAtCalls (op : Js Unit) (s : AppState) : List (ProviderCall × AppState) :=
  (run op s).inFlight

/-- The calls `cs`, all made in the state `st`. -/
def shown (st : AppState) (cs : List ProviderCall) : List (ProviderCall × AppState) :=
  cs.map fun c => (c, st)

/-- The provider call of a `call` effect. -/
def Effect.call? : Effect → Option ProviderCall
  | .call c => some c
  | _ => none

/-! ## What the claims speak about -/

/-- A name counts as empty when it is `undefined`, `null` or the empty string. -/
def JsVal.nonEmpty : JsVal → Bool
  | .undefined => false
  | .null => false
  | .str s => decide (s ≠ "")
  | _ => true

/-- The screen and the user profile of `t` are those of `s`. -/
def SessionUnchanged (s t : AppState) : Prop :=
  t.currentScreen = s.currentScreen ∧ t.userName = s.userName ∧ t.userEmail = s.userEmail

instance (s t : AppState) : Decidable (SessionUnchanged s t) := by
  unfold SessionUnchanged
  infer_instance

/-- The (title, message) pair of an `Alert.alert` effect. -/
def Effect.alert? : Effect → Option (String × JsText)
  | .alert title message _ => some (title, message)
  | _ => none

/-- The alerts of a trace, in order, as (title, message) pairs. -/
def alertsOf (tr : List Effect) : List (String × JsText) :=
  tr.filterMap Effect.alert?

/-- The error `handleGoogleSignIn` catches, if a provider call throws: that of
`hasPlayServices`, else that of `signIn`. -/
def GoogleEnv.thrown? (env : GoogleEnv) : Option JsError :=
  match env.hasPlayServices, env.signIn with
  | .throws e, _ => some e
  | .returns _, .throws e => some e
  | .returns _, .returns _ => none

/-- The alert the `catch` block of `handleGoogleSignIn` chooses for the error `e`. -/
def googleErrorAlert (statusCodes : StatusCodes) (e : JsError) : Effect :=
  if e.code.strictEqStr statusCodes.SIGN_IN_CANCELLED then
    .alert "Cancelled" (lit "Google sign-in was cancelled") []
  else if e.code.strictEqStr statusCodes.IN_PROGRESS then
    .alert "In Progress" (lit "Google sign-in is in progress") []
  else if e.code.strictEqStr statusCodes.PLAY_SERVICES_NOT_AVAILABLE then
    .alert "Error" (lit "Google Play Services not available") []
  else
    .alert "Error" (lit "Something went wrong with Google sign-in") []

/-- What the `catch` block of `handleFacebookSignIn` does with the error `e`, followed by
the `finally` block. -/
def facebookCatch (e : JsError) : List Effect :=
  [.setLoading false, .log "Facebook Sign-In Error:" (.error e),
   .alert "Error" (lit "Something went wrong with Facebook sign-in") [], .setLoading false]

/-- The operations of the controller, each with the outcomes of its provider calls. -/
inductive Op where
  | initializeOAuth (env : InitEnv)
  | handleGoogleSignIn (env : GoogleEnv)
  | handleFacebookSignIn (env : FacebookEnv)
  | handleSignOut (env : SignOutEnv)

/-- The code an operation runs. -/
def Op.code (statusCodes : StatusCodes) : Op → Js Unit
  | .initializeOAuth env => AuthFlow.initializeOAuth env
  | .handleGoogleSignIn env => AuthFlow.handleGoogleSignIn statusCodes env
  | .handleFacebookSignIn env => AuthFlow.handleFacebookSignIn env
  | .handleSignOut env => AuthFlow.handleSignOut env

/-- The states the controller can be in: the initial state, and any state an operation
ends in when started from a reachable state, whatever the providers answer. -/
inductive Reachable (statusCodes : StatusCodes) : AppState → Prop where
  | initial : Reachable statusCodes AppState.initial
  | step {s : AppState} (op : Op) :
      Reachable statusCodes s → Reachable statusCodes (stateAfter (op.code statusCodes) s)

/-- The invariant of the data model: the screen is `welcome` exactly when the user name is
non-empty. -/
def Consistent (s : AppState) : Prop :=
  s.currentScreen = "welcome" ↔ s.userName.nonEmpty = true

instance (s : AppState) : Decidable (Consistent s) := by
  unfold Consistent
  infer_instance

/-- The name a provider hands over on the success path of an operation (a restored
session, a Google sign-in, a Facebook profile); `none` on every other path. -/
def Op.suppliedName? : Op → Option JsVal
  | .initializeOAuth ⟨.returns _, .returns (some u)⟩ => some u.user.name
  | .handleGoogleSignIn ⟨.returns _, .returns u⟩ => some u.user.name
  | .handleFacebookSignIn ⟨.returns ⟨false⟩, .returns (some _), .returns ⟨.returns p⟩⟩ =>
      some p.name
  | _ => none

/-- Whether an effect is an `Alert.alert` call. -/
def Effect.isAlert : Effect → Bool
  | .alert _ _ _ => true
  | _ => false

/-- Whether an effect is a `console.log` call. -/
def Effect.isLog : Effect → Bool
  | .log _ _ => true
  | _ => false

/-- The state after a startup that found no session: the signup screen, nothing in flight. -/
def signupState : AppState :=
  ⟨"signup", .str "", .str "", false, false⟩

/-- A welcome state with the profile of the sign-out scenario. -/
def welcomeBo : AppState :=
  ⟨"welcome", .str "Bo", .str "bo@x.com", false, false⟩

/-- A possible value of the library constants `statusCodes`. -/
def sampleStatusCodes : StatusCodes :=
  ⟨"SIGN_IN_CANCELLED", "IN_PROGRESS", "PLAY_SERVICES_NOT_AVAILABLE"⟩


/-! ## Symbolic execution of the four operations

One lemma per path through each operation: the state and the full trace it ends with. -/

theorem stateAfter_eq (op : Js Unit) (s : AppState) : stateAfter op s = (run op s).state :=
  rfl

theorem traceOf_eq (op : Js Unit) (s : AppState) : traceOf op s = (run op s).trace :=
  rfl

theorem statesAtCalls_eq (op : Js Unit) (s : AppState) :
    statesAtCalls op s = (run op s).inFlight :=
  rfl

theorem run_initializeOAuth_session (s : AppState) (u : UserInfo) :
    run (initializeOAuth ⟨.returns (), .returns (some u)⟩) s =
      ⟨{ s with userName := u.user.name, userEmail := u.user.email,
                currentScreen := "welcome", initializing := false },
       [.call .configure, .call .getCurrentUser, .setUserName u.user.name,
        .setUserEmail u.user.email, .setCurrentScreen "welcome", .setInitializing false],
       shown s
         [.configure, .getCurrentUser]⟩ :=
  rfl

theorem run_initializeOAuth_none (s : AppState) :
    run (initializeOAuth ⟨.returns (), .returns none⟩) s =
      ⟨{ s with initializing := false },
       [.call .configure, .call .getCurrentUser, .setInitializing false],
       shown s
         [.configure, .getCurrentUser]⟩ :=
  rfl

theorem run_initializeOAuth_configure_throws (s : AppState) (e : JsError)
    (g : Outcome (Option UserInfo)) :
    run (initializeOAuth ⟨.throws e, g⟩) s =
      ⟨{ s with initializing := false },
       [.call .configure, .log "OAuth initialization error:" (.error e),
        .setInitializing false],
       shown s
         [.configure]⟩ :=
  rfl

theorem run_initializeOAuth_getCurrentUser_throws (s : AppState) (e : JsError) :
    run (initializeOAuth ⟨.returns (), .throws e⟩) s =
      ⟨{ s with initializing := false },
       [.call .configure, .call .getCurrentUser,
        .log "OAuth initialization error:" (.error e), .setInitializing false],
       shown s
         [.configure, .getCurrentUser]⟩ :=
  rfl

theorem run_handleGoogleSignIn_success (sc : StatusCodes) (s : AppState) (u : UserInfo) :
    run (handleGoogleSignIn sc ⟨.returns (), .returns u⟩) s =
      ⟨{ s with userName := u.user.name, userEmail := u.user.email,
                currentScreen := "welcome", loading := false },
       [.setLoading true, .call .hasPlayServices, .call .signIn,
        .log "Google Sign-In Success:" (.userInfo u), .setUserName u.user.name,
        .setUserEmail u.user.email, .setCurrentScreen "welcome",
        .alert "Success!"
          [.text "Welcome ", .subst u.user.name,
           .text "! You\x27ve successfully signed in with Google."] ["OK"],
        .setLoading false],
       shown { s with loading := true }
         [.hasPlayServices, .signIn]⟩ :=
  rfl

theorem run_handleGoogleSignIn_hasPlayServices_throws (sc : StatusCodes) (s : AppState)
    (e : JsError) (si : Outcome UserInfo) :
    run (handleGoogleSignIn sc ⟨.throws e, si⟩) s =
      ⟨{ s with loading := false },
       [.setLoading true, .call .hasPlayServices, .setLoading false,
        .log "Google Sign-In Error:" (.error e), googleErrorAlert sc e,
        .setLoading false],
       shown { s with loading := true }
         [.hasPlayServices]⟩ := by
  simp only [run, handleGoogleSignIn, googleErrorAlert, tryFinally, tryCatch, tryCatchThe,
    MonadExceptOf.tryCatch, MonadFinally.tryFinally', Functor.map, bind, pure, invoke, emit,
    snapshot, shown, setLoading, modifyState, throw, throwThe, MonadExceptOf.throw,
    consoleLog, alert]
  generalize e.code.strictEqStr sc.SIGN_IN_CANCELLED = b1
  generalize e.code.strictEqStr sc.IN_PROGRESS = b2
  generalize e.code.strictEqStr sc.PLAY_SERVICES_NOT_AVAILABLE = b3
  cases b1 <;> cases b2 <;> cases b3 <;> rfl

theorem run_handleGoogleSignIn_signIn_throws (sc : StatusCodes) (s : AppState)
    (e : JsError) :
    run (handleGoogleSignIn sc ⟨.returns (), .throws e⟩) s =
      ⟨{ s with loading := false },
       [.setLoading true, .call .hasPlayServices, .call .signIn, .setLoading false,
        .log "Google Sign-In Error:" (.error e), googleErrorAlert sc e,
        .setLoading false],
       shown { s with loading := true }
         [.hasPlayServices, .signIn]⟩ := by
  simp only [run, handleGoogleSignIn, googleErrorAlert, tryFinally, tryCatch, tryCatchThe,
    MonadExceptOf.tryCatch, MonadFinally.tryFinally', Functor.map, bind, pure, invoke, emit,
    snapshot, shown, setLoading, modifyState, throw, throwThe, MonadExceptOf.throw,
    consoleLog, alert]
  generalize e.code.strictEqStr sc.SIGN_IN_CANCELLED = b1
  generalize e.code.strictEqStr sc.IN_PROGRESS = b2
  generalize e.code.strictEqStr sc.PLAY_SERVICES_NOT_AVAILABLE = b3
  cases b1 <;> cases b2 <;> cases b3 <;> rfl

theorem run_handleFacebookSignIn_success (s : AppState) (data : AccessToken)
    (p : UserProfile) :
    run (handleFacebookSignIn
        ⟨.returns ⟨false⟩, .returns (some data), .returns ⟨.returns p⟩⟩) s =
      ⟨{ s with userName := p.name, userEmail := p.email.or (.str "No email provided"),
                currentScreen := "welcome", loading := false },
       [.setLoading true, .call .logInWithPermissions, .call .getCurrentAccessToken,
        .call (.fetch (graphUrl data)), .call .responseJson,
        .log "Facebook Sign-In Success:" (.userProfile p), .setUserName p.name,
        .setUserEmail (p.email.or (.str "No email provided")), .setCurrentScreen "welcome",
        .alert "Success!"
          [.text "Welcome ", .subst p.name,
           .text "! You\x27ve successfully signed in with Facebook."] ["OK"],
        .setLoading false],
       shown { s with loading := true }
         [.logInWithPermissions, .getCurrentAccessToken, .fetch (graphUrl data),
          .responseJson]⟩ :=
  rfl

theorem run_handleFacebookSignIn_cancelled (s : AppState)
    (tk : Outcome (Option AccessToken)) (f : Outcome Response) :
    run (handleFacebookSignIn ⟨.returns ⟨true⟩, tk, f⟩) s =
      ⟨{ s with loading := false },
       [.setLoading true, .call .logInWithPermissions,
        .alert "Cancelled" (lit "Facebook login was cancelled") [],
        .setLoading false, .setLoading false],
       shown { s with loading := true }
         [.logInWithPermissions]⟩ :=
  rfl

theorem run_handleFacebookSignIn_no_token (s : AppState) (f : Outcome Response) :
    run (handleFacebookSignIn ⟨.returns ⟨false⟩, .returns none, f⟩) s =
      ⟨{ s with loading := false },
       [.setLoading true, .call .logInWithPermissions, .call .getCurrentAccessToken,
        .alert "Error" (lit "Something went wrong obtaining access token") [],
        .setLoading false, .setLoading false],
       shown { s with loading := true }
         [.logInWithPermissions, .getCurrentAccessToken]⟩ :=
  rfl

theorem run_handleFacebookSignIn_login_throws (s : AppState) (e : JsError)
    (tk : Outcome (Option AccessToken)) (f : Outcome Response) :
    run (handleFacebookSignIn ⟨.throws e, tk, f⟩) s =
      ⟨{ s with loading := false },
       [.setLoading true, .call .logInWithPermissions] ++ facebookCatch e,
       shown { s with loading := true }
         [.logInWithPermissions]⟩ :=
  rfl

theorem run_handleFacebookSignIn_token_throws (s : AppState) (e : JsError)
    (f : Outcome Response) :
    run (handleFacebookSignIn ⟨.returns ⟨false⟩, .throws e, f⟩) s =
      ⟨{ s with loading := false },
       [.setLoading true, .call .logInWithPermissions, .call .getCurrentAccessToken]
         ++ facebookCatch e,
       shown { s with loading := true }
         [.logInWithPermissions, .getCurrentAccessToken]⟩ :=
  rfl

theorem run_handleFacebookSignIn_fetch_throws (s : AppState) (data : AccessToken)
    (e : JsError) :
    run (handleFacebookSignIn ⟨.returns ⟨false⟩, .returns (some data), .throws e⟩) s =
      ⟨{ s with loading := false },
       [.setLoading true, .call .logInWithPermissions, .call .getCurrentAccessToken,
        .call (.fetch (graphUrl data))] ++ facebookCatch e,
       shown { s with loading := true }
         [.logInWithPermissions, .getCurrentAccessToken, .fetch (graphUrl data)]⟩ :=
  rfl

theorem run_handleFacebookSignIn_json_throws (s : AppState) (data : AccessToken)
    (e : JsError) :
    run (handleFacebookSignIn
        ⟨.returns ⟨false⟩, .returns (some data), .returns ⟨.throws e⟩⟩) s =
      ⟨{ s with loading := false },
       [.setLoading true, .call .logInWithPermissions, .call .getCurrentAccessToken,
        .call (.fetch (graphUrl data)), .call .responseJson] ++ facebookCatch e,
       shown { s with loading := true }
         [.logInWithPermissions, .getCurrentAccessToken, .fetch (graphUrl data),
          .responseJson]⟩ :=
  rfl

theorem run_handleSignOut_success (s : AppState) :
    run (handleSignOut ⟨.returns (), .returns ()⟩) s =
      ⟨{ s with userName := .str "", userEmail := .str "", currentScreen := "signup",
                loading := false },
       [.setLoading true, .call .googleSignOut, .call .logOut, .setUserName (.str ""),
        .setUserEmail (.str ""), .setCurrentScreen "signup",
        .alert "Signed Out" (lit "You have been signed out successfully") [],
        .setLoading false],
       shown { s with loading := true }
         [.googleSignOut, .logOut]⟩ :=
  rfl

theorem run_handleSignOut_signOut_throws (s : AppState) (e : JsError) (lo : Outcome Unit) :
    run (handleSignOut ⟨.throws e, lo⟩) s =
      ⟨{ s with loading := false },
       [.setLoading true, .call .googleSignOut, .log "Sign out error:" (.error e),
        .alert "Error" (lit "Something went wrong during sign out") [],
        .setLoading false],
       shown { s with loading := true }
         [.googleSignOut]⟩ :=
  rfl

theorem run_handleSignOut_logOut_throws (s : AppState) (e : JsError) :
    run (handleSignOut ⟨.returns (), .throws e⟩) s =
      ⟨{ s with loading := false },
       [.setLoading true, .call .googleSignOut, .call .logOut,
        .log "Sign out error:" (.error e),
        .alert "Error" (lit "Something went wrong during sign out") [],
        .setLoading false],
       shown { s with loading := true }
         [.googleSignOut, .logOut]⟩ :=
  rfl

/-! ## Sign-out: final state (C1) -/

/-- C1, as stated, fails: started on the welcome screen with the profile of Bo, a sign-out
whose `GoogleSignin.signOut` throws ends on screen `welcome` with the profile still in
place, not on `signup` with an empty profile. -/
theorem handleSignOut_throw_not_reset :
    ¬ ((stateAfter (handleSignOut ⟨.throws ⟨.undefined⟩, .returns ()⟩) welcomeBo).currentScreen
          = "signup" ∧
        (stateAfter (handleSignOut ⟨.throws ⟨.undefined⟩, .returns ()⟩) welcomeBo).userName
          = .str "" ∧
        (stateAfter (handleSignOut ⟨.throws ⟨.undefined⟩, .returns ()⟩) welcomeBo).userEmail
          = .str "") ∧
      (stateAfter (handleSignOut ⟨.throws ⟨.undefined⟩, .returns ()⟩) welcomeBo).currentScreen
        = "welcome" := by
  decide

/-- C1, amended: from every prior state, when both provider calls of `handleSignOut` return
the state afterwards has screen `signup`, name `""` and email `""`; when
`GoogleSignin.signOut` throws, or it returns and `LoginManager.logOut` throws, screen, name
and email are those of the prior state. -/
theorem handleSignOut_final_state :
    (∀ s : AppState,
      (stateAfter (handleSignOut ⟨.returns (), .returns ()⟩) s).currentScreen = "signup" ∧
      (stateAfter (handleSignOut ⟨.returns (), .returns ()⟩) s).userName = .str "" ∧
      (stateAfter (handleSignOut ⟨.returns (), .returns ()⟩) s).userEmail = .str "") ∧
    (∀ (s : AppState) (e : JsError) (lo : Outcome Unit),
      SessionUnchanged s (stateAfter (handleSignOut ⟨.throws e, lo⟩) s)) ∧
    (∀ (s : AppState) (e : JsError),
      SessionUnchanged s (stateAfter (handleSignOut ⟨.returns (), .throws e⟩) s)) := by
  refine ⟨fun s => ?_, fun s e lo => ?_, fun s e => ?_⟩
  · simp [stateAfter, run_handleSignOut_success]
  · simp [stateAfter, run_handleSignOut_signOut_throws, SessionUnchanged]
  · simp [stateAfter, run_handleSignOut_logOut_throws, SessionUnchanged]

/-! ## Failed sign-in attempts leave the session alone (C2) -/

/-- C2: every failed sign-in attempt leaves screen, user name and user email as they were.
For `handleGoogleSignIn`: `hasPlayServices` throws, or it returns and `signIn` throws, with
any error code. For `handleFacebookSignIn`: `logInWithPermissions` throws or reports a
cancellation, `getCurrentAccessToken` throws or yields `null`, `fetch` throws, or
`response.json` throws. -/
theorem failed_signIn_session_unchanged :
    (∀ (sc : StatusCodes) (s : AppState) (e : JsError) (si : Outcome UserInfo),
      SessionUnchanged s (stateAfter (handleGoogleSignIn sc ⟨.throws e, si⟩) s)) ∧
    (∀ (sc : StatusCodes) (s : AppState) (e : JsError),
      SessionUnchanged s (stateAfter (handleGoogleSignIn sc ⟨.returns (), .throws e⟩) s)) ∧
    (∀ (s : AppState) (e : JsError) (tk : Outcome (Option AccessToken))
        (f : Outcome Response),
      SessionUnchanged s (stateAfter (handleFacebookSignIn ⟨.throws e, tk, f⟩) s)) ∧
    (∀ (s : AppState) (tk : Outcome (Option AccessToken)) (f : Outcome Response),
      SessionUnchanged s (stateAfter (handleFacebookSignIn ⟨.returns ⟨true⟩, tk, f⟩) s)) ∧
    (∀ (s : AppState) (e : JsError) (f : Outcome Response),
      SessionUnchanged s
        (stateAfter (handleFacebookSignIn ⟨.returns ⟨false⟩, .throws e, f⟩) s)) ∧
    (∀ (s : AppState) (f : Outcome Response),
      SessionUnchanged s
        (stateAfter (handleFacebookSignIn ⟨.returns ⟨false⟩, .returns none, f⟩) s)) ∧
    (∀ (s : AppState) (data : AccessToken) (e : JsError),
      SessionUnchanged s
        (stateAfter
          (handleFacebookSignIn ⟨.returns ⟨false⟩, .returns (some data), .throws e⟩) s)) ∧
    (∀ (s : AppState) (data : AccessToken) (e : JsError),
      SessionUnchanged s
        (stateAfter
          (handleFacebookSignIn
            ⟨.returns ⟨false⟩, .returns (some data), .returns ⟨.throws e⟩⟩) s)) := by
  refine ⟨?_, ?_, ?_, ?_, ?_, ?_, ?_, ?_⟩ <;> intros
  · simp [stateAfter, run_handleGoogleSignIn_hasPlayServices_throws, SessionUnchanged]
  · simp [stateAfter, run_handleGoogleSignIn_signIn_throws, SessionUnchanged]
  · simp [stateAfter, run_handleFacebookSignIn_login_throws, SessionUnchanged]
  · simp [stateAfter, run_handleFacebookSignIn_cancelled, SessionUnchanged]
  · simp [stateAfter, run_handleFacebookSignIn_token_throws, SessionUnchanged]
  · simp [stateAfter, run_handleFacebookSignIn_no_token, SessionUnchanged]
  · simp [stateAfter, run_handleFacebookSignIn_fetch_throws, SessionUnchanged]
  · simp [stateAfter, run_handleFacebookSignIn_json_throws, SessionUnchanged]

/-! ## Successful sign-in (C3) -/

/-- C3, as stated, fails: a Facebook sign-in in which every call returns, and whose profile
body has no `name` field, ends on screen `welcome` with `userName` undefined, which is not
a non-empty name. -/
theorem facebook_success_without_name :
    ¬ ((stateAfter
          (handleFacebookSignIn
            ⟨.returns ⟨false⟩, .returns (some ⟨"token"⟩),
             .returns ⟨.returns ⟨.undefined, .undefined, .undefined, .undefined⟩⟩⟩)
          signupState).currentScreen = "welcome" ∧
        (stateAfter
          (handleFacebookSignIn
            ⟨.returns ⟨false⟩, .returns (some ⟨"token"⟩),
             .returns ⟨.returns ⟨.undefined, .undefined, .undefined, .undefined⟩⟩⟩)
          signupState).userName.nonEmpty = true) ∧
      (stateAfter
          (handleFacebookSignIn
            ⟨.returns ⟨false⟩, .returns (some ⟨"token"⟩),
             .returns ⟨.returns ⟨.undefined, .undefined, .undefined, .undefined⟩⟩⟩)
          signupState).userName = .undefined := by
  decide

/-- C3, amended: after every successful sign-in the screen is `welcome` and `userName` is
the `name` field of the record the provider returned (`userInfo.user.name` for Google,
the `name` of the profile body for Facebook, `undefined` when the field is absent); so
`userName` is non-empty exactly when that field is. -/
theorem successful_signIn_state :
    (∀ (sc : StatusCodes) (s : AppState) (u : UserInfo),
      (stateAfter (handleGoogleSignIn sc ⟨.returns (), .returns u⟩) s).currentScreen
        = "welcome" ∧
      (stateAfter (handleGoogleSignIn sc ⟨.returns (), .returns u⟩) s).userName
        = u.user.name) ∧
    (∀ (s : AppState) (data : AccessToken) (p : UserProfile),
      (stateAfter
        (handleFacebookSignIn
          ⟨.returns ⟨false⟩, .returns (some data), .returns ⟨.returns p⟩⟩) s).currentScreen
        = "welcome" ∧
      (stateAfter
        (handleFacebookSignIn
          ⟨.returns ⟨false⟩, .returns (some data), .returns ⟨.returns p⟩⟩) s).userName
        = p.name) := by
  refine ⟨fun sc s u => ?_, fun s data p => ?_⟩
  · simp [stateAfter, run_handleGoogleSignIn_success]
  · simp [stateAfter, run_handleFacebookSignIn_success]

/-! ## The screen / profile invariant (C4) -/

/-- One operation keeps the direction "a non-empty user name implies the welcome screen". -/
theorem name_implies_welcome_step (sc : StatusCodes) (op : Op) (s : AppState)
    (h : s.userName.nonEmpty = true → s.currentScreen = "welcome") :
    (stateAfter (op.code sc) s).userName.nonEmpty = true →
      (stateAfter (op.code sc) s).currentScreen = "welcome" := by
  revert h
  cases op with
  | initializeOAuth env =>
    rcases env with ⟨⟨⟨⟩⟩ | e1, ⟨_ | u⟩ | e2⟩ <;>
      simp [Op.code, stateAfter_eq, run_initializeOAuth_session, run_initializeOAuth_none,
        run_initializeOAuth_configure_throws, run_initializeOAuth_getCurrentUser_throws]
  | handleGoogleSignIn env =>
    rcases env with ⟨⟨⟨⟩⟩ | e1, u | e2⟩ <;>
      simp [Op.code, stateAfter_eq, run_handleGoogleSignIn_success,
        run_handleGoogleSignIn_hasPlayServices_throws, run_handleGoogleSignIn_signIn_throws]
  | handleFacebookSignIn env =>
    rcases env with ⟨⟨⟨_ | _⟩⟩ | e1, ⟨_ | d⟩ | e2, ⟨⟨p | e4⟩⟩ | e3⟩ <;>
      simp [Op.code, stateAfter_eq, run_handleFacebookSignIn_success,
        run_handleFacebookSignIn_cancelled, run_handleFacebookSignIn_no_token,
        run_handleFacebookSignIn_login_throws, run_handleFacebookSignIn_token_throws,
        run_handleFacebookSignIn_fetch_throws, run_handleFacebookSignIn_json_throws]
  | handleSignOut env =>
    rcases env with ⟨⟨⟨⟩⟩ | e1, ⟨⟨⟩⟩ | e2⟩ <;>
      simp [Op.code, stateAfter_eq, run_handleSignOut_success,
        run_handleSignOut_signOut_throws, run_handleSignOut_logOut_throws,
        JsVal.nonEmpty]

/-- One operation, started in a consistent state, ends in a consistent state exactly when
the name it was handed (if any) is non-empty. -/
theorem consistent_step_iff (sc : StatusCodes) (op : Op) (s : AppState)
    (hc : Consistent s) :
    Consistent (stateAfter (op.code sc) s) ↔
      ∀ n, op.suppliedName? = some n → n.nonEmpty = true := by
  unfold Consistent at hc ⊢
  cases op with
  | initializeOAuth env =>
    rcases env with ⟨⟨⟨⟩⟩ | e1, ⟨_ | u⟩ | e2⟩ <;>
      simp [Op.code, Op.suppliedName?, stateAfter_eq, run_initializeOAuth_session,
        run_initializeOAuth_none, run_initializeOAuth_configure_throws,
        run_initializeOAuth_getCurrentUser_throws, hc]
  | handleGoogleSignIn env =>
    rcases env with ⟨⟨⟨⟩⟩ | e1, u | e2⟩ <;>
      simp [Op.code, Op.suppliedName?, stateAfter_eq, run_handleGoogleSignIn_success,
        run_handleGoogleSignIn_hasPlayServices_throws, run_handleGoogleSignIn_signIn_throws,
        hc]
  | handleFacebookSignIn env =>
    rcases env with ⟨⟨⟨_ | _⟩⟩ | e1, ⟨_ | d⟩ | e2, ⟨⟨p | e4⟩⟩ | e3⟩ <;>
      simp [Op.code, Op.suppliedName?, stateAfter_eq, run_handleFacebookSignIn_success,
        run_handleFacebookSignIn_cancelled, run_handleFacebookSignIn_no_token,
        run_handleFacebookSignIn_login_throws, run_handleFacebookSignIn_token_throws,
        run_handleFacebookSignIn_fetch_throws, run_handleFacebookSignIn_json_throws, hc]
  | handleSignOut env =>
    rcases env with ⟨⟨⟨⟩⟩ | e1, ⟨⟨⟩⟩ | e2⟩ <;>
      simp [Op.code, Op.suppliedName?, stateAfter_eq, run_handleSignOut_success,
        run_handleSignOut_signOut_throws, run_handleSignOut_logOut_throws,
        JsVal.nonEmpty, hc]

/-- C4, as stated, fails: start in the initial state, let `initializeOAuth` find no
session, then let a Facebook sign-in succeed with a profile body that has no `name` field.
The state reached has screen `welcome` and an empty (undefined) user name, although the
initial state satisfies the predicate. -/
theorem reachable_state_not_consistent :
    Consistent AppState.initial ∧
    Reachable sampleStatusCodes
      (stateAfter
        ((Op.handleFacebookSignIn
          ⟨.returns ⟨false⟩, .returns (some ⟨"token"⟩),
           .returns ⟨.returns ⟨.undefined, .undefined, .undefined, .undefined⟩⟩⟩).code
          sampleStatusCodes)
        (stateAfter ((Op.initializeOAuth ⟨.returns (), .returns none⟩).code sampleStatusCodes)
          AppState.initial)) ∧
    ¬ Consistent
      (stateAfter
        ((Op.handleFacebookSignIn
          ⟨.returns ⟨false⟩, .returns (some ⟨"token"⟩),
           .returns ⟨.returns ⟨.undefined, .undefined, .undefined, .undefined⟩⟩⟩).code
          sampleStatusCodes)
        (stateAfter ((Op.initializeOAuth ⟨.returns (), .returns none⟩).code sampleStatusCodes)
          AppState.initial)) := by
  refine ⟨by decide,
    Reachable.step _ (Reachable.step _ Reachable.initial), ?_⟩
  decide

/-- C4, amended: the predicate "screen = welcome iff userName is non-empty" holds in the
initial state; in every reachable state a non-empty `userName` implies screen `welcome`;
and an operation started in a state where the predicate holds ends in one where it holds
exactly when the name the provider handed over on its success path (restored session,
Google user, Facebook profile) is non-empty, so sign-out and every failing path preserve
it for every outcome. -/
theorem session_invariant (sc : StatusCodes) (s : AppState) (hr : Reachable sc s) :
    Consistent AppState.initial ∧
    (s.userName.nonEmpty = true → s.currentScreen = "welcome") ∧
    (∀ op : Op, Consistent s →
      (Consistent (stateAfter (op.code sc) s) ↔
        ∀ n, op.suppliedName? = some n → n.nonEmpty = true)) := by
  refine ⟨by decide, ?_, fun op hc => consistent_step_iff sc op s hc⟩
  induction hr with
  | initial => decide
  | step op _ ih => exact name_implies_welcome_step sc op _ ih

/-- Witness for `session_invariant`: after a startup without session and a Google sign-in
as Ada the state is reachable and consistent, and signing out of it again ends in a
consistent state. -/
theorem session_invariant_witness :
    Reachable sampleStatusCodes
      (stateAfter
        ((Op.handleGoogleSignIn
          ⟨.returns (), .returns ⟨⟨.str "Ada", .str "ada@x.com"⟩⟩⟩).code sampleStatusCodes)
        (stateAfter ((Op.initializeOAuth ⟨.returns (), .returns none⟩).code sampleStatusCodes)
          AppState.initial)) ∧
    Consistent
      (stateAfter ((Op.handleSignOut ⟨.returns (), .returns ()⟩).code sampleStatusCodes)
        (stateAfter
          ((Op.handleGoogleSignIn
            ⟨.returns (), .returns ⟨⟨.str "Ada", .str "ada@x.com"⟩⟩⟩).code sampleStatusCodes)
          (stateAfter
            ((Op.initializeOAuth ⟨.returns (), .returns none⟩).code sampleStatusCodes)
            AppState.initial))) :=
  ⟨Reachable.step _ (Reachable.step _ Reachable.initial),
   ((session_invariant sampleStatusCodes _
      (Reachable.step _ (Reachable.step _ Reachable.initial))).2.2
      (Op.handleSignOut ⟨.returns (), .returns ()⟩)
      (by decide)).2
      (by intro n hn; cases hn)⟩

/-! ## The loading flag (C5) -/

theorem googleErrorAlert_call? (sc : StatusCodes) (e : JsError) :
    (googleErrorAlert sc e).call? = none := by
  unfold googleErrorAlert
  split_ifs <;> rfl

/-- C5: for `handleGoogleSignIn`, `handleFacebookSignIn` and `handleSignOut`, whatever the
provider calls do (success, Facebook cancellation, missing token, thrown error), the first
effect of the handler is `setLoading(true)`; the handler makes at least one provider call,
the recorded calls are exactly the calls of its trace, and every one of them is made in a
state with `loading = true`, whatever `loading` was before; and the state the handler ends
in has `loading = false`. -/
theorem loading_set_first_and_cleared :
    (∀ (sc : StatusCodes) (env : GoogleEnv) (s : AppState),
      (traceOf (handleGoogleSignIn sc env) s).head? = some (.setLoading true) ∧
      statesAtCalls (handleGoogleSignIn sc env) s ≠ [] ∧
      (statesAtCalls (handleGoogleSignIn sc env) s).map Prod.fst
        = (traceOf (handleGoogleSignIn sc env) s).filterMap Effect.call? ∧
      (∀ p ∈ statesAtCalls (handleGoogleSignIn sc env) s, p.2.loading = true) ∧
      (stateAfter (handleGoogleSignIn sc env) s).loading = false) ∧
    (∀ (env : FacebookEnv) (s : AppState),
      (traceOf (handleFacebookSignIn env) s).head? = some (.setLoading true) ∧
      statesAtCalls (handleFacebookSignIn env) s ≠ [] ∧
      (statesAtCalls (handleFacebookSignIn env) s).map Prod.fst
        = (traceOf (handleFacebookSignIn env) s).filterMap Effect.call? ∧
      (∀ p ∈ statesAtCalls (handleFacebookSignIn env) s, p.2.loading = true) ∧
      (stateAfter (handleFacebookSignIn env) s).loading = false) ∧
    (∀ (env : SignOutEnv) (s : AppState),
      (traceOf (handleSignOut env) s).head? = some (.setLoading true) ∧
      statesAtCalls (handleSignOut env) s ≠ [] ∧
      (statesAtCalls (handleSignOut env) s).map Prod.fst
        = (traceOf (handleSignOut env) s).filterMap Effect.call? ∧
      (∀ p ∈ statesAtCalls (handleSignOut env) s, p.2.loading = true) ∧
      (stateAfter (handleSignOut env) s).loading = false) := by
  refine ⟨fun sc env s => ?_, fun env s => ?_, fun env s => ?_⟩
  · rcases env with ⟨⟨⟨⟩⟩ | e1, u | e2⟩ <;>
      simp only [stateAfter_eq, traceOf_eq, statesAtCalls_eq, run_handleGoogleSignIn_success,
        run_handleGoogleSignIn_hasPlayServices_throws, run_handleGoogleSignIn_signIn_throws,
        List.filterMap_cons, googleErrorAlert_call?] <;>
      simp [shown, Effect.call?]
  · rcases env with ⟨⟨⟨_ | _⟩⟩ | e1, ⟨_ | d⟩ | e2, ⟨⟨p | e4⟩⟩ | e3⟩ <;>
      simp [stateAfter_eq, traceOf_eq, statesAtCalls_eq, shown, Effect.call?, facebookCatch,
        List.filterMap_cons, run_handleFacebookSignIn_success,
        run_handleFacebookSignIn_cancelled, run_handleFacebookSignIn_no_token,
        run_handleFacebookSignIn_login_throws, run_handleFacebookSignIn_token_throws,
        run_handleFacebookSignIn_fetch_throws, run_handleFacebookSignIn_json_throws]
  · rcases env with ⟨⟨⟨⟩⟩ | e1, ⟨⟨⟩⟩ | e2⟩ <;>
      simp [stateAfter_eq, traceOf_eq, statesAtCalls_eq, shown, Effect.call?,
        List.filterMap_cons, run_handleSignOut_success, run_handleSignOut_signOut_throws,
        run_handleSignOut_logOut_throws]

/-! ## Sign-out: provider calls (C6) -/

/-- C6, as stated, fails: when `GoogleSignin.signOut` throws, the trace of `handleSignOut`
holds the call to `GoogleSignin.signOut` but no call to `LoginManager.logOut`. -/
theorem handleSignOut_throw_skips_logOut :
    ¬ (Effect.call .googleSignOut ∈
          traceOf (handleSignOut ⟨.throws ⟨.undefined⟩, .returns ()⟩) welcomeBo ∧
        Effect.call .logOut ∈
          traceOf (handleSignOut ⟨.throws ⟨.undefined⟩, .returns ()⟩) welcomeBo) ∧
      Effect.call .logOut ∉
        traceOf (handleSignOut ⟨.throws ⟨.undefined⟩, .returns ()⟩) welcomeBo := by
  simp [traceOf_eq, run_handleSignOut_signOut_throws]

/-- C6, amended: every run of `handleSignOut` calls `GoogleSignin.signOut`; it calls
`LoginManager.logOut` when `GoogleSignin.signOut` returns, and does not call it when
`GoogleSignin.signOut` throws. -/
theorem handleSignOut_provider_calls :
    (∀ (env : SignOutEnv) (s : AppState),
      Effect.call .googleSignOut ∈ traceOf (handleSignOut env) s) ∧
    (∀ (lo : Outcome Unit) (s : AppState),
      Effect.call .logOut ∈ traceOf (handleSignOut ⟨.returns (), lo⟩) s) ∧
    (∀ (e : JsError) (lo : Outcome Unit) (s : AppState),
      Effect.call .logOut ∉ traceOf (handleSignOut ⟨.throws e, lo⟩) s) := by
  refine ⟨fun env s => ?_, fun lo s => ?_, fun e lo s => ?_⟩
  · rcases env with ⟨⟨⟨⟩⟩ | e1, ⟨⟨⟩⟩ | e2⟩ <;>
      simp [traceOf_eq, run_handleSignOut_success, run_handleSignOut_signOut_throws,
        run_handleSignOut_logOut_throws]
  · rcases lo with ⟨⟨⟩⟩ | e2 <;>
      simp [traceOf_eq, run_handleSignOut_success, run_handleSignOut_logOut_throws]
  · simp [traceOf_eq, run_handleSignOut_signOut_throws]

/-! ## Facebook profile normalisation (C7) -/

/-- C7, as stated, fails: a profile body whose `email` field is present but is the empty
string yields `userEmail = "No email provided"`, not the field. -/
theorem facebook_empty_email_replaced :
    (stateAfter
        (handleFacebookSignIn
          ⟨.returns ⟨false⟩, .returns (some ⟨"token"⟩),
           .returns ⟨.returns ⟨.str "1", .str "Bo", .str "", .undefined⟩⟩⟩)
        signupState).userEmail ≠ .str "" ∧
    (stateAfter
        (handleFacebookSignIn
          ⟨.returns ⟨false⟩, .returns (some ⟨"token"⟩),
           .returns ⟨.returns ⟨.str "1", .str "Bo", .str "", .undefined⟩⟩⟩)
        signupState).userEmail = .str "No email provided" := by
  decide

/-- C7, amended: when the login is not cancelled, a token is obtained and the profile
request returns the JSON object `p`, the resulting state has `userName = p.name`, screen
`welcome`, and `userEmail = p.email` when `p.email` is truthy, `"No email provided"` when
it is absent or otherwise falsy (`""`, `null`, `0`, `false`). The body
`{name: "Bo", id: "1"}` gives the profile `{Bo, No email provided}` on screen `welcome`. -/
theorem facebook_profile_normalised :
    (∀ (s : AppState) (data : AccessToken) (p : UserProfile),
      (stateAfter
        (handleFacebookSignIn
          ⟨.returns ⟨false⟩, .returns (some data), .returns ⟨.returns p⟩⟩) s).userName
        = p.name ∧
      (stateAfter
        (handleFacebookSignIn
          ⟨.returns ⟨false⟩, .returns (some data), .returns ⟨.returns p⟩⟩) s).currentScreen
        = "welcome" ∧
      (stateAfter
        (handleFacebookSignIn
          ⟨.returns ⟨false⟩, .returns (some data), .returns ⟨.returns p⟩⟩) s).userEmail
        = (if p.email.truthy = true then p.email else .str "No email provided")) ∧
    (∀ (s : AppState) (data : AccessToken) (id name picture : JsVal),
      (stateAfter
        (handleFacebookSignIn
          ⟨.returns ⟨false⟩, .returns (some data),
           .returns ⟨.returns ⟨id, name, .undefined, picture⟩⟩⟩) s).userEmail
        = .str "No email provided") ∧
    stateAfter
        (handleFacebookSignIn
          ⟨.returns ⟨false⟩, .returns (some ⟨"token"⟩),
           .returns ⟨.returns ⟨.str "1", .str "Bo", .undefined, .undefined⟩⟩⟩)
        signupState
      = ⟨"welcome", .str "Bo", .str "No email provided", false, false⟩ := by
  refine ⟨fun s data p => ?_, fun s data id name picture => ?_, ?_⟩
  · simp [stateAfter_eq, run_handleFacebookSignIn_success, JsVal.or]
  · simp [stateAfter_eq, run_handleFacebookSignIn_success, JsVal.or, JsVal.truthy]
  · decide

/-! ## Google error mapping (C8) -/

theorem JsVal.strictEqStr_iff (v : JsVal) (s : String) :
    v.strictEqStr s = true ↔ v = .str s := by
  cases v <;> simp [JsVal.strictEqStr]

theorem googleErrorAlert_isAlert (sc : StatusCodes) (e : JsError) :
    (googleErrorAlert sc e).isAlert = true := by
  unfold googleErrorAlert
  split_ifs <;> rfl

/-- On a failing Google sign-in the only alert is the one the `catch` block chooses, and
the screen is left alone. -/
theorem google_failure_alerts (sc : StatusCodes) (env : GoogleEnv) (e : JsError)
    (s : AppState) (he : env.thrown? = some e) :
    alertsOf (traceOf (handleGoogleSignIn sc env) s) = alertsOf [googleErrorAlert sc e] ∧
    (stateAfter (handleGoogleSignIn sc env) s).currentScreen = s.currentScreen := by
  rcases env with ⟨⟨⟨⟩⟩ | e1, u | e2⟩ <;> simp [GoogleEnv.thrown?] at he <;> subst he <;>
    simp [traceOf_eq, stateAfter_eq, run_handleGoogleSignIn_hasPlayServices_throws,
      run_handleGoogleSignIn_signIn_throws, alertsOf, List.filterMap_cons, Effect.alert?]

/-- C8: when `hasPlayServices` or `signIn` throws the error `e`, and the three status codes
are pairwise distinct, `handleGoogleSignIn` presents exactly one alert, fixed by `e.code`:
`SIGN_IN_CANCELLED` gives ("Cancelled", "Google sign-in was cancelled"), `IN_PROGRESS`
gives ("In Progress", "Google sign-in is in progress"), `PLAY_SERVICES_NOT_AVAILABLE`
gives ("Error", "Google Play Services not available"), any other code or none gives
("Error", "Something went wrong with Google sign-in"); the four messages are pairwise
distinct and the screen afterwards is the screen before. -/
theorem google_error_mapping (sc : StatusCodes) (env : GoogleEnv) (e : JsError)
    (s : AppState)
    (hd : sc.SIGN_IN_CANCELLED ≠ sc.IN_PROGRESS ∧
      sc.SIGN_IN_CANCELLED ≠ sc.PLAY_SERVICES_NOT_AVAILABLE ∧
      sc.IN_PROGRESS ≠ sc.PLAY_SERVICES_NOT_AVAILABLE)
    (he : env.thrown? = some e) :
    (e.code = .str sc.SIGN_IN_CANCELLED →
      alertsOf (traceOf (handleGoogleSignIn sc env) s)
        = [("Cancelled", lit "Google sign-in was cancelled")]) ∧
    (e.code = .str sc.IN_PROGRESS →
      alertsOf (traceOf (handleGoogleSignIn sc env) s)
        = [("In Progress", lit "Google sign-in is in progress")]) ∧
    (e.code = .str sc.PLAY_SERVICES_NOT_AVAILABLE →
      alertsOf (traceOf (handleGoogleSignIn sc env) s)
        = [("Error", lit "Google Play Services not available")]) ∧
    (e.code ≠ .str sc.SIGN_IN_CANCELLED → e.code ≠ .str sc.IN_PROGRESS →
      e.code ≠ .str sc.PLAY_SERVICES_NOT_AVAILABLE →
      alertsOf (traceOf (handleGoogleSignIn sc env) s)
        = [("Error", lit "Something went wrong with Google sign-in")]) ∧
    [lit "Google sign-in was cancelled", lit "Google sign-in is in progress",
      lit "Google Play Services not available",
      lit "Something went wrong with Google sign-in"].Nodup ∧
    (stateAfter (handleGoogleSignIn sc env) s).currentScreen = s.currentScreen := by
  obtain ⟨h12, h13, h23⟩ := hd
  obtain ⟨htr, hscreen⟩ := google_failure_alerts sc env e s he
  rw [htr]
  refine ⟨fun h => ?_, fun h => ?_, fun h => ?_, fun h1 h2 h3 => ?_, by decide, hscreen⟩
  · simp [alertsOf, Effect.alert?, googleErrorAlert, JsVal.strictEqStr_iff, h]
  · simp [alertsOf, Effect.alert?, googleErrorAlert, JsVal.strictEqStr_iff, h, Ne.symm h12]
  · simp [alertsOf, Effect.alert?, googleErrorAlert, JsVal.strictEqStr_iff, h, Ne.symm h13, Ne.symm h23]
  · simp [alertsOf, Effect.alert?, googleErrorAlert, JsVal.strictEqStr_iff, h1, h2, h3]

/-- Witness for `google_error_mapping`: with distinct status codes, a `signIn` that throws
the cancellation code on the signup screen shows the single alert "Cancelled" and stays on
the signup screen. -/
theorem google_error_mapping_witness :
    alertsOf
        (traceOf
          (handleGoogleSignIn sampleStatusCodes
            ⟨.returns (), .throws ⟨.str "SIGN_IN_CANCELLED"⟩⟩) signupState)
      = [("Cancelled", lit "Google sign-in was cancelled")] ∧
    (stateAfter
        (handleGoogleSignIn sampleStatusCodes
          ⟨.returns (), .throws ⟨.str "SIGN_IN_CANCELLED"⟩⟩) signupState).currentScreen
      = "signup" :=
  ⟨(google_error_mapping sampleStatusCodes ⟨.returns (), .throws ⟨.str "SIGN_IN_CANCELLED"⟩⟩
      ⟨.str "SIGN_IN_CANCELLED"⟩ signupState (by decide) rfl).1 rfl,
   (google_error_mapping sampleStatusCodes ⟨.returns (), .throws ⟨.str "SIGN_IN_CANCELLED"⟩⟩
      ⟨.str "SIGN_IN_CANCELLED"⟩ signupState (by decide) rfl).2.2.2.2.2⟩

/-! ## Startup (C9) -/

/-- C9: whatever `configure` and `getCurrentUser` do, `initializeOAuth` ends with
`initializing = false`. When both return and the session is non-null with user
`{name, email}`, the state afterwards has `userName = name`, `userEmail = email` and screen
`welcome`; when the session is `null`, or either call throws, screen, name and email are
kept, so that from the initial state they are `signup`, `""`, `""`. The session
`{name: "Ada", email: "ada@x.com"}` ends on `welcome` with that profile. -/
theorem initializeOAuth_outcomes :
    (∀ (env : InitEnv) (s : AppState),
      (stateAfter (initializeOAuth env) s).initializing = false) ∧
    (∀ (s : AppState) (u : UserInfo),
      (stateAfter (initializeOAuth ⟨.returns (), .returns (some u)⟩) s).userName
        = u.user.name ∧
      (stateAfter (initializeOAuth ⟨.returns (), .returns (some u)⟩) s).userEmail
        = u.user.email ∧
      (stateAfter (initializeOAuth ⟨.returns (), .returns (some u)⟩) s).currentScreen
        = "welcome") ∧
    (∀ s : AppState,
      SessionUnchanged s (stateAfter (initializeOAuth ⟨.returns (), .returns none⟩) s)) ∧
    (∀ (s : AppState) (e : JsError) (g : Outcome (Option UserInfo)),
      SessionUnchanged s (stateAfter (initializeOAuth ⟨.throws e, g⟩) s)) ∧
    (∀ (s : AppState) (e : JsError),
      SessionUnchanged s (stateAfter (initializeOAuth ⟨.returns (), .throws e⟩) s)) ∧
    (∀ (e : JsError) (g : Outcome (Option UserInfo)),
      stateAfter (initializeOAuth ⟨.returns (), .returns none⟩) AppState.initial
        = ⟨"signup", .str "", .str "", false, false⟩ ∧
      stateAfter (initializeOAuth ⟨.throws e, g⟩) AppState.initial
        = ⟨"signup", .str "", .str "", false, false⟩ ∧
      stateAfter (initializeOAuth ⟨.returns (), .throws e⟩) AppState.initial
        = ⟨"signup", .str "", .str "", false, false⟩) ∧
    stateAfter
        (initializeOAuth ⟨.returns (), .returns (some ⟨⟨.str "Ada", .str "ada@x.com"⟩⟩)⟩)
        AppState.initial
      = ⟨"welcome", .str "Ada", .str "ada@x.com", false, false⟩ := by
  refine ⟨fun env s => ?_, fun s u => ?_, fun s => ?_, fun s e g => ?_, fun s e => ?_,
    fun e g => ?_, ?_⟩
  · rcases env with ⟨⟨⟨⟩⟩ | e1, ⟨_ | u⟩ | e2⟩ <;>
      simp [stateAfter_eq, run_initializeOAuth_session, run_initializeOAuth_none,
        run_initializeOAuth_configure_throws, run_initializeOAuth_getCurrentUser_throws]
  · simp [stateAfter_eq, run_initializeOAuth_session]
  · simp [stateAfter_eq, run_initializeOAuth_none, SessionUnchanged]
  · simp [stateAfter_eq, run_initializeOAuth_configure_throws, SessionUnchanged]
  · simp [stateAfter_eq, run_initializeOAuth_getCurrentUser_throws, SessionUnchanged]
  · simp [stateAfter_eq, run_initializeOAuth_none, run_initializeOAuth_configure_throws,
      run_initializeOAuth_getCurrentUser_throws, AppState.initial]
  · decide

/-! ## Alerts and log entries on errors (C10) -/

/-- C10, as stated, fails: when `GoogleSignin.configure` throws during `initializeOAuth`
the trace holds a log entry but no alert. -/
theorem initializeOAuth_error_not_alerted :
    ¬ ((traceOf (initializeOAuth ⟨.throws ⟨.undefined⟩, .returns none⟩)
            AppState.initial).any Effect.isAlert = true ∧
        (traceOf (initializeOAuth ⟨.throws ⟨.undefined⟩, .returns none⟩)
            AppState.initial).any Effect.isLog = true) ∧
      (traceOf (initializeOAuth ⟨.throws ⟨.undefined⟩, .returns none⟩)
          AppState.initial).any Effect.isAlert = false := by
  simp [traceOf_eq, run_initializeOAuth_configure_throws, Effect.isAlert]

/-- C10, amended: a provider call throwing the error `e` in `handleGoogleSignIn`,
`handleFacebookSignIn` or `handleSignOut` leaves both a `console.log` entry for `e` and an
alert in the trace; a provider call throwing in `initializeOAuth` leaves a `console.log`
entry for `e` and no alert; a Facebook cancellation and a missing access token leave an
alert and no `console.log` entry. -/
theorem error_alerts_and_logs :
    (∀ (sc : StatusCodes) (s : AppState) (e : JsError) (si : Outcome UserInfo),
      Effect.log "Google Sign-In Error:" (.error e)
        ∈ traceOf (handleGoogleSignIn sc ⟨.throws e, si⟩) s ∧
      (traceOf (handleGoogleSignIn sc ⟨.throws e, si⟩) s).any Effect.isAlert = true) ∧
    (∀ (sc : StatusCodes) (s : AppState) (e : JsError),
      Effect.log "Google Sign-In Error:" (.error e)
        ∈ traceOf (handleGoogleSignIn sc ⟨.returns (), .throws e⟩) s ∧
      (traceOf (handleGoogleSignIn sc ⟨.returns (), .throws e⟩) s).any Effect.isAlert
        = true) ∧
    (∀ (s : AppState) (e : JsError) (tk : Outcome (Option AccessToken))
        (f : Outcome Response),
      Effect.log "Facebook Sign-In Error:" (.error e)
        ∈ traceOf (handleFacebookSignIn ⟨.throws e, tk, f⟩) s ∧
      Effect.alert "Error" (lit "Something went wrong with Facebook sign-in") []
        ∈ traceOf (handleFacebookSignIn ⟨.throws e, tk, f⟩) s) ∧
    (∀ (s : AppState) (e : JsError) (f : Outcome Response),
      Effect.log "Facebook Sign-In Error:" (.error e)
        ∈ traceOf (handleFacebookSignIn ⟨.returns ⟨false⟩, .throws e, f⟩) s ∧
      Effect.alert "Error" (lit "Something went wrong with Facebook sign-in") []
        ∈ traceOf (handleFacebookSignIn ⟨.returns ⟨false⟩, .throws e, f⟩) s) ∧
    (∀ (s : AppState) (e : JsError) (data : AccessToken),
      Effect.log "Facebook Sign-In Error:" (.error e)
        ∈ traceOf (handleFacebookSignIn ⟨.returns ⟨false⟩, .returns (some data), .throws e⟩) s ∧
      Effect.alert "Error" (lit "Something went wrong with Facebook sign-in") []
        ∈ traceOf (handleFacebookSignIn ⟨.returns ⟨false⟩, .returns (some data), .throws e⟩) s) ∧
    (∀ (s : AppState) (e : JsError) (data : AccessToken),
      Effect.log "Facebook Sign-In Error:" (.error e)
        ∈ traceOf (handleFacebookSignIn ⟨.returns ⟨false⟩, .returns (some data), .returns ⟨.throws e⟩⟩) s ∧
      Effect.alert "Error" (lit "Something went wrong with Facebook sign-in") []
        ∈ traceOf (handleFacebookSignIn ⟨.returns ⟨false⟩, .returns (some data), .returns ⟨.throws e⟩⟩) s) ∧
    (∀ (s : AppState) (e : JsError) (lo : Outcome Unit),
      Effect.log "Sign out error:" (.error e) ∈ traceOf (handleSignOut ⟨.throws e, lo⟩) s ∧
      Effect.alert "Error" (lit "Something went wrong during sign out") []
        ∈ traceOf (handleSignOut ⟨.throws e, lo⟩) s) ∧
    (∀ (s : AppState) (e : JsError),
      Effect.log "Sign out error:" (.error e)
        ∈ traceOf (handleSignOut ⟨.returns (), .throws e⟩) s ∧
      Effect.alert "Error" (lit "Something went wrong during sign out") []
        ∈ traceOf (handleSignOut ⟨.returns (), .throws e⟩) s) ∧
    (∀ (s : AppState) (e : JsError) (g : Outcome (Option UserInfo)),
      Effect.log "OAuth initialization error:" (.error e)
        ∈ traceOf (initializeOAuth ⟨.throws e, g⟩) s ∧
      (traceOf (initializeOAuth ⟨.throws e, g⟩) s).any Effect.isAlert = false) ∧
    (∀ (s : AppState) (e : JsError),
      Effect.log "OAuth initialization error:" (.error e)
        ∈ traceOf (initializeOAuth ⟨.returns (), .throws e⟩) s ∧
      (traceOf (initializeOAuth ⟨.returns (), .throws e⟩) s).any Effect.isAlert = false) ∧
    (∀ (s : AppState) (tk : Outcome (Option AccessToken)) (f : Outcome Response),
      Effect.alert "Cancelled" (lit "Facebook login was cancelled") []
        ∈ traceOf (handleFacebookSignIn ⟨.returns ⟨true⟩, tk, f⟩) s ∧
      (traceOf (handleFacebookSignIn ⟨.returns ⟨true⟩, tk, f⟩) s).any Effect.isLog = false) ∧
    (∀ (s : AppState) (f : Outcome Response),
      Effect.alert "Error" (lit "Something went wrong obtaining access token") []
        ∈ traceOf (handleFacebookSignIn ⟨.returns ⟨false⟩, .returns none, f⟩) s ∧
      (traceOf (handleFacebookSignIn ⟨.returns ⟨false⟩, .returns none, f⟩) s).any
        Effect.isLog = false) := by
  refine ⟨?_, ?_, ?_, ?_, ?_, ?_, ?_, ?_, ?_, ?_, ?_, ?_⟩
  · intro sc s e si
    simp [traceOf_eq, run_handleGoogleSignIn_hasPlayServices_throws,
      googleErrorAlert_isAlert]
  · intro sc s e
    simp [traceOf_eq, run_handleGoogleSignIn_signIn_throws, googleErrorAlert_isAlert]
  · intro s e tk f
    simp [traceOf_eq, run_handleFacebookSignIn_login_throws, facebookCatch]
  · intro s e f
    simp [traceOf_eq, run_handleFacebookSignIn_token_throws, facebookCatch]
  · intro s e data
    simp [traceOf_eq, run_handleFacebookSignIn_fetch_throws, facebookCatch]
  · intro s e data
    simp [traceOf_eq, run_handleFacebookSignIn_json_throws, facebookCatch]
  · intro s e lo
    simp [traceOf_eq, run_handleSignOut_signOut_throws]
  · intro s e
    simp [traceOf_eq, run_handleSignOut_logOut_throws]
  · intro s e g
    simp [traceOf_eq, run_initializeOAuth_configure_throws, Effect.isAlert]
  · intro s e
    simp [traceOf_eq, run_initializeOAuth_getCurrentUser_throws, Effect.isAlert]
  · intro s tk f
    simp [traceOf_eq, run_handleFacebookSignIn_cancelled, Effect.isLog]
  · intro s f
    simp [traceOf_eq, run_handleFacebookSignIn_no_token, Effect.isLog]

end AuthFlow
